import Mathlib

/-!
Shallow embedding of the earth-renderer camera placement logic.

The embedding follows `src/vite.config.js` (class `Globe`, in particular
`Globe.positionCameraAtTarget` and `Globe.initializeControls`) and the
application entry point in `src/unnamed/part_000` (`setupGUI` of the
Globe-based main module).  JavaScript floating point numbers are modelled
as real numbers; the three.js vectors and matrices are modelled as records
of reals.  The external ellipsoid conversion of the 3d-tiles-renderer
library is modelled from the spec as the standard geodetic-to-Cartesian
conversion on the WGS84 ellipsoid.
-/

namespace EarthRenderer

/-- A 3D vector (three.js `Vector3`) with real components. -/
structure Vec3 where
  x : ℝ
  y : ℝ
  z : ℝ

/-- A 3x3 matrix, modelling the linear part of the group's world matrix
(`tiles.group.matrixWorld`; the group has no translation or scale, so the
4x4 matrix acts as its rotational 3x3 block). -/
structure Mat3 where
  m00 : ℝ
  m01 : ℝ
  m02 : ℝ
  m10 : ℝ
  m11 : ℝ
  m12 : ℝ
  m20 : ℝ
  m21 : ℝ
  m22 : ℝ

/-- Matrix-vector application (three.js `Vector3.applyMatrix4` for a matrix
with no translation component). -/
def Mat3.apply (m : Mat3) (v : Vec3) : Vec3 :=
  ⟨m.m00 * v.x + m.m01 * v.y + m.m02 * v.z,
   m.m10 * v.x + m.m11 * v.y + m.m12 * v.z,
   m.m20 * v.x + m.m21 * v.y + m.m22 * v.z⟩

/-- The matrix of a rotation about the x axis by angle `θ`
(three.js `rotation.x = θ` composed into the object's matrix). -/
noncomputable def rotX (θ : ℝ) : Mat3 :=
  ⟨1, 0, 0,
   0, Real.cos θ, -Real.sin θ,
   0, Real.sin θ, Real.cos θ⟩

/-- The identity matrix: a fresh three.js object's `matrixWorld` before any
`updateMatrixWorld` call. -/
def id3 : Mat3 :=
  ⟨1, 0, 0, 0, 1, 0, 0, 0, 1⟩

/-- three.js `MathUtils.DEG2RAD`. -/
noncomputable def DEG2RAD : ℝ := Real.pi / 180

/-- WGS84 semi-major axis in meters. -/
def wgs84a : ℝ := 6378137

/-- WGS84 semi-minor axis in meters. -/
def wgs84b : ℝ := 6356752.314245179

/-- Modelled from the spec: `WGS84_ELLIPSOID.getCartographicToPosition` of
the external 3d-tiles-renderer library, the black-box
"deterministic geodetic-to-Cartesian conversion" of spec section 6, taken
as the standard conversion on the WGS84 reference ellipsoid: the surface
point plus `height` times the geodetic surface normal, with latitude and
longitude in radians. -/
noncomputable def ellipsoidToWorld (lat lon height : ℝ) : Vec3 :=
  let γ := Real.sqrt (wgs84a ^ 2 * Real.cos lat ^ 2 + wgs84b ^ 2 * Real.sin lat ^ 2)
  ⟨(wgs84a ^ 2 / γ + height) * (Real.cos lat * Real.cos lon),
   (wgs84a ^ 2 / γ + height) * (Real.cos lat * Real.sin lon),
   (wgs84b ^ 2 / γ + height) * Real.sin lat⟩

/-- Squared Euclidean distance between two vectors. -/
def dist2 (u v : Vec3) : ℝ :=
  (u.x - v.x) ^ 2 + (u.y - v.y) ^ 2 + (u.z - v.z) ^ 2

/-- Euclidean distance between two vectors. -/
noncomputable def edist3 (u v : Vec3) : ℝ := Real.sqrt (dist2 u v)

/-- Euclidean norm of a vector. -/
noncomputable def norm3 (v : Vec3) : ℝ := Real.sqrt (v.x ^ 2 + v.y ^ 2 + v.z ^ 2)

/-- three.js `Vector3.normalize` (the zero vector stays the zero vector,
matching `divideScalar(length || 1)`; in the real model division by zero
yields zero componentwise). -/
noncomputable def normalize3 (v : Vec3) : Vec3 :=
  ⟨v.x / norm3 v, v.y / norm3 v, v.z / norm3 v⟩

/-- The camera's forward (viewing) direction after `camera.lookAt(target)`:
the unit vector from the camera position toward the target. -/
noncomputable def lookAtForward (pos target : Vec3) : Vec3 :=
  normalize3 ⟨target.x - pos.x, target.y - pos.y, target.z - pos.z⟩

/-- State of the `Globe` class (`src/vite.config.js`): the constructor's
target coordinates, the tiles group transform (its x rotation and its
cached, possibly stale, world matrix), and the camera pose fields written
by `positionCameraAtTarget`. -/
structure Globe where
  targetLat : ℝ
  targetLon : ℝ
  towerHeight : ℝ
  groupRotX : ℝ
  groupMatrixWorld : Mat3
  cameraPos : Vec3
  cameraForward : Vec3
  cameraLookTarget : Vec3

/-- `this.tiles.group.updateMatrixWorld()`: recompute the cached world
matrix from the group's current rotation. -/
noncomputable def updateMatrixWorld (g : Globe) : Globe :=
  { g with groupMatrixWorld := rotX g.groupRotX }

/-- Code line `const elevationFromHorizontal = 90 - tiltAngle;`. -/
def elevationFromHorizontal (tiltAngle : ℝ) : ℝ := 90 - tiltAngle

/-- Code line `const elevationRad = elevationFromHorizontal * MathUtils.DEG2RAD;`. -/
noncomputable def elevationRad (tiltAngle : ℝ) : ℝ :=
  elevationFromHorizontal tiltAngle * DEG2RAD

/-- Code line `const cameraDistance = distanceFromTower * Math.cos(elevationRad);`
(the horizontal offset). -/
noncomputable def cameraDistance (distanceFromTower tiltAngle : ℝ) : ℝ :=
  distanceFromTower * Real.cos (elevationRad tiltAngle)

/-- Code line `const verticalDistance = distanceFromTower * Math.sin(elevationRad);`. -/
noncomputable def verticalDistance (distanceFromTower tiltAngle : ℝ) : ℝ :=
  distanceFromTower * Real.sin (elevationRad tiltAngle)

/-- Code line `const cameraHeight = (this.towerHeight / 2) + verticalDistance;`. -/
noncomputable def cameraHeight (towerHeight distanceFromTower tiltAngle : ℝ) : ℝ :=
  towerHeight / 2 + verticalDistance distanceFromTower tiltAngle

/-- Code line `const cameraLat = this.targetLat - (cameraDistance / 111000);`. -/
noncomputable def cameraLat (targetLat distanceFromTower tiltAngle : ℝ) : ℝ :=
  targetLat - cameraDistance distanceFromTower tiltAngle / 111000

/-- `Globe.positionCameraAtTarget(distanceFromTower, tiltAngle)`
(src/vite.config.js lines 136-177): update the group world matrix, compute
the target's transformed position at the tower's midpoint, compute the
camera's geodetic point from distance and tilt, convert and transform it
with the same matrix, write the camera position, and make the camera look
at the target. -/
noncomputable def positionCameraAtTarget (g : Globe) (distanceFromTower tiltAngle : ℝ) : Globe :=
  let g1 := updateMatrixWorld g
  let targetPosition := g1.groupMatrixWorld.apply
    (ellipsoidToWorld (g1.targetLat * DEG2RAD) (g1.targetLon * DEG2RAD) (g1.towerHeight / 2))
  let camPos := g1.groupMatrixWorld.apply
    (ellipsoidToWorld (cameraLat g1.targetLat distanceFromTower tiltAngle * DEG2RAD)
      (g1.targetLon * DEG2RAD)
      (cameraHeight g1.towerHeight distanceFromTower tiltAngle))
  { g1 with
      cameraPos := camPos,
      cameraLookTarget := targetPosition,
      cameraForward := lookAtForward camPos targetPosition }

/-- The `Globe` as constructed by the application: Tokyo Tower coordinates
from the constructor, the group x rotation `-π/2` set in `initializeTiles`,
a not-yet-updated world matrix, and a default camera pose. -/
noncomputable def initialGlobe : Globe :=
  { targetLat := 35.6586
    targetLon := 139.7454
    towerHeight := 333
    groupRotX := -Real.pi / 2
    groupMatrixWorld := id3
    cameraPos := ⟨0, 0, 0⟩
    cameraForward := ⟨0, 0, -1⟩
    cameraLookTarget := ⟨0, 0, 0⟩ }

/-! GUI layer (`setupGUI` of the Globe-based main module,
`src/unnamed/part_000` lines 300-324).  Slider values are plain numbers
never fed to transcendental functions here, so they are modelled as
rationals to keep the handler executable. -/

/-- The mutable `params` object of the main module. -/
structure Params where
  tiltAngle : ℚ
  distanceFromCenter : ℚ
deriving DecidableEq

/-- The arguments of one `globe.positionCameraAtTarget(...)` invocation. -/
structure PlacementCall where
  distanceArg : ℚ
  tiltArg : ℚ
deriving DecidableEq

/-- The distance slider's `onChange` handler: when the new distance exceeds
200000 it first writes `params.tiltAngle = 0`, then it invokes
`globe.positionCameraAtTarget(params.distanceFromCenter, params.tiltAngle)`
with the current parameter values.  Returns the updated parameters and the
recorded invocation. -/
def distanceSliderOnChange (p : Params) : Params × PlacementCall :=
  let p1 := if p.distanceFromCenter > 200000 then { p with tiltAngle := 0 } else p
  (p1, ⟨p1.distanceFromCenter, p1.tiltAngle⟩)

/-! Deferred controls activation (`Globe.initializeControls`,
`src/vite.config.js` lines 94-128), as a transition system over the DOM
events this path listens to. -/

/-- The two event kinds the deferred-activation path listens for. -/
inductive UiEvent
  | pointerdown
  | wheel
deriving DecidableEq

/-- The state of the deferred-activation machinery: whether controls are
enabled, the `_initialInteractionPerformed` flag, whether each `once`
listener is still attached, and how many events were re-dispatched. -/
structure ControlsState where
  controlsEnabled : Bool
  initialInteractionPerformed : Bool
  pointerListenerAttached : Bool
  wheelListenerAttached : Bool
  redispatchCount : Nat
deriving DecidableEq

/-- State after the constructor ran with `disableControls = true`:
controls disabled, flag clear, both one-time listeners attached. -/
def initialControlsState : ControlsState :=
  ⟨false, false, true, true, 0⟩

/-- Body of `activateControlsAndRedispatch`: return early when the flag is
already set, otherwise enable controls, set the flag, and re-dispatch the
triggering event. -/
def activate (s : ControlsState) : ControlsState :=
  if s.initialInteractionPerformed then s
  else
    { s with
        controlsEnabled := true
        initialInteractionPerformed := true
        redispatchCount := s.redispatchCount + 1 }

/-- One DOM event delivered to the canvas: a `once` listener runs at most
one time for its event type and is detached when it fires. -/
def controlsStep (s : ControlsState) (e : UiEvent) : ControlsState :=
  match e with
  | .pointerdown =>
      if s.pointerListenerAttached then
        activate { s with pointerListenerAttached := false }
      else s
  | .wheel =>
      if s.wheelListenerAttached then
        activate { s with wheelListenerAttached := false }
      else s

/-- Deliver a sequence of events. -/
def controlsRun (s : ControlsState) (evs : List UiEvent) : ControlsState :=
  evs.foldl controlsStep s

/-! Helper lemmas. -/

/-- Componentwise negation of a vector. -/
def neg3 (v : Vec3) : Vec3 := ⟨-v.x, -v.y, -v.z⟩

lemma elevationRad_zero : elevationRad 0 = Real.pi / 2 := by
  unfold elevationRad elevationFromHorizontal DEG2RAD
  ring

lemma elevationRad_ninety : elevationRad 90 = 0 := by
  unfold elevationRad elevationFromHorizontal DEG2RAD
  ring

lemma cameraLat_tilt_zero (lat d : ℝ) : cameraLat lat d 0 = lat := by
  simp [cameraLat, cameraDistance, elevationRad_zero, Real.cos_pi_div_two]

lemma cameraHeight_tilt_zero (h d : ℝ) : cameraHeight h d 0 = h / 2 + d := by
  simp [cameraHeight, verticalDistance, elevationRad_zero, Real.sin_pi_div_two]

lemma cameraLat_tilt_ninety (lat d : ℝ) : cameraLat lat d 90 = lat - d / 111000 := by
  simp [cameraLat, cameraDistance, elevationRad_ninety, Real.cos_zero]

lemma cameraHeight_tilt_ninety (h d : ℝ) : cameraHeight h d 90 = h / 2 := by
  simp [cameraHeight, verticalDistance, elevationRad_ninety, Real.sin_zero]

lemma cameraPos_eq (g : Globe) (d tilt : ℝ) :
    (positionCameraAtTarget g d tilt).cameraPos =
      (rotX g.groupRotX).apply
        (ellipsoidToWorld (cameraLat g.targetLat d tilt * DEG2RAD) (g.targetLon * DEG2RAD)
          (cameraHeight g.towerHeight d tilt)) := rfl

lemma cameraLookTarget_eq (g : Globe) (d tilt : ℝ) :
    (positionCameraAtTarget g d tilt).cameraLookTarget =
      (rotX g.groupRotX).apply
        (ellipsoidToWorld (g.targetLat * DEG2RAD) (g.targetLon * DEG2RAD)
          (g.towerHeight / 2)) := rfl

lemma cameraForward_eq (g : Globe) (d tilt : ℝ) :
    (positionCameraAtTarget g d tilt).cameraForward =
      lookAtForward
        ((rotX g.groupRotX).apply
          (ellipsoidToWorld (cameraLat g.targetLat d tilt * DEG2RAD) (g.targetLon * DEG2RAD)
            (cameraHeight g.towerHeight d tilt)))
        ((rotX g.groupRotX).apply
          (ellipsoidToWorld (g.targetLat * DEG2RAD) (g.targetLon * DEG2RAD)
            (g.towerHeight / 2))) := rfl

lemma camPos_tilt_zero (g : Globe) (d : ℝ) :
    (positionCameraAtTarget g d 0).cameraPos =
      (rotX g.groupRotX).apply
        (ellipsoidToWorld (g.targetLat * DEG2RAD) (g.targetLon * DEG2RAD)
          (g.towerHeight / 2 + d)) := by
  rw [cameraPos_eq, cameraLat_tilt_zero, cameraHeight_tilt_zero]

lemma camPos_tilt_ninety (g : Globe) (d : ℝ) :
    (positionCameraAtTarget g d 90).cameraPos =
      (rotX g.groupRotX).apply
        (ellipsoidToWorld ((g.targetLat - d / 111000) * DEG2RAD) (g.targetLon * DEG2RAD)
          (g.towerHeight / 2)) := by
  rw [cameraPos_eq, cameraLat_tilt_ninety, cameraHeight_tilt_ninety]

lemma rotX_dist2 (θ : ℝ) (u v : Vec3) :
    dist2 ((rotX θ).apply u) ((rotX θ).apply v) = dist2 u v := by
  have h := Real.sin_sq_add_cos_sq θ
  simp only [rotX, Mat3.apply, dist2]
  linear_combination ((u.y - v.y) ^ 2 + (u.z - v.z) ^ 2) * h

lemma dist2_same_latlon (φ l h₁ h₂ : ℝ) :
    dist2 (ellipsoidToWorld φ l h₁) (ellipsoidToWorld φ l h₂) = (h₁ - h₂) ^ 2 := by
  have hφ := Real.sin_sq_add_cos_sq φ
  have hl := Real.sin_sq_add_cos_sq l
  simp only [ellipsoidToWorld, dist2]
  linear_combination (h₁ - h₂) ^ 2 * Real.cos φ ^ 2 * hl + (h₁ - h₂) ^ 2 * hφ

/-! Claim theorems. -/

/-- Claim C1: for every tiltAngle and distance, the placement computation
derives an elevation angle of 90 degrees minus tiltAngle, a horizontal
offset of distance times the cosine of that elevation, a vertical offset of
distance times the sine of that elevation, and a camera height of half the
target height plus the vertical offset. -/
theorem claim1_placement_trig_formulas (d tilt h : ℝ) :
    elevationFromHorizontal tilt = 90 - tilt ∧
    cameraDistance d tilt = d * Real.cos ((90 - tilt) * (Real.pi / 180)) ∧
    verticalDistance d tilt = d * Real.sin ((90 - tilt) * (Real.pi / 180)) ∧
    cameraHeight h d tilt = h / 2 + d * Real.sin ((90 - tilt) * (Real.pi / 180)) := by
  refine ⟨rfl, ?_, ?_, ?_⟩ <;>
    simp [cameraDistance, verticalDistance, cameraHeight, elevationRad,
      elevationFromHorizontal, DEG2RAD]

/-- Claim C2: the camera's geodetic point subtracts horizontalOffset/111000
degrees from the target latitude, keeps the longitude, and uses the
computed camera height; it is converted with the same ellipsoid conversion
and transformed by the same world matrix as the target. -/
theorem claim2_camera_geodetic_and_transform (g : Globe) (d tilt : ℝ) :
    cameraLat g.targetLat d tilt = g.targetLat - cameraDistance d tilt / 111000 ∧
    (positionCameraAtTarget g d tilt).cameraPos =
      (rotX g.groupRotX).apply
        (ellipsoidToWorld (cameraLat g.targetLat d tilt * DEG2RAD) (g.targetLon * DEG2RAD)
          (cameraHeight g.towerHeight d tilt)) ∧
    (positionCameraAtTarget g d tilt).cameraLookTarget =
      (rotX g.groupRotX).apply
        (ellipsoidToWorld (g.targetLat * DEG2RAD) (g.targetLon * DEG2RAD)
          (g.towerHeight / 2)) :=
  ⟨rfl, rfl, rfl⟩

/-- Claim C4: at tiltAngle 0 the camera keeps the target's latitude and
longitude and sits at geodetic height targetHeight/2 + distance; at
tiltAngle 90 it sits at geodetic height targetHeight/2, displaced south so
that the displacement at the 111000 m/degree scale is exactly the
distance. -/
theorem claim4_boundary_tilt_angles (g : Globe) (d : ℝ) :
    cameraLat g.targetLat d 0 = g.targetLat ∧
    cameraHeight g.towerHeight d 0 = g.towerHeight / 2 + d ∧
    (positionCameraAtTarget g d 0).cameraPos =
      (rotX g.groupRotX).apply
        (ellipsoidToWorld (g.targetLat * DEG2RAD) (g.targetLon * DEG2RAD)
          (g.towerHeight / 2 + d)) ∧
    cameraHeight g.towerHeight d 90 = g.towerHeight / 2 ∧
    cameraLat g.targetLat d 90 = g.targetLat - d / 111000 ∧
    (g.targetLat - cameraLat g.targetLat d 90) * 111000 = d := by
  refine ⟨cameraLat_tilt_zero _ _, cameraHeight_tilt_zero _ _, camPos_tilt_zero _ _,
    cameraHeight_tilt_ninety _ _, cameraLat_tilt_ninety _ _, ?_⟩
  rw [cameraLat_tilt_ninety]
  ring

/-- Claim C6: within one invocation the camera's look target and position
are both transformed by the same world-matrix snapshot, freshly recomputed
from the group rotation; the orientation is the look-at direction toward
the transformed target; and the result never depends on a stale cached
world matrix. -/
theorem claim6_same_snapshot_lookat (g : Globe) (d tilt : ℝ) :
    (∃ W : Mat3, W = rotX g.groupRotX ∧
      (positionCameraAtTarget g d tilt).cameraLookTarget =
        W.apply (ellipsoidToWorld (g.targetLat * DEG2RAD) (g.targetLon * DEG2RAD)
          (g.towerHeight / 2)) ∧
      (positionCameraAtTarget g d tilt).cameraPos =
        W.apply (ellipsoidToWorld (cameraLat g.targetLat d tilt * DEG2RAD)
          (g.targetLon * DEG2RAD) (cameraHeight g.towerHeight d tilt))) ∧
    (positionCameraAtTarget g d tilt).cameraForward =
      lookAtForward (positionCameraAtTarget g d tilt).cameraPos
        (positionCameraAtTarget g d tilt).cameraLookTarget ∧
    (∀ M : Mat3,
      positionCameraAtTarget { g with groupMatrixWorld := M } d tilt =
        positionCameraAtTarget g d tilt) :=
  ⟨⟨rotX g.groupRotX, rfl, rfl, rfl⟩, rfl, fun _ => rfl⟩

/-- Claim C7: the placement is deterministic; two invocations with the same
target coordinates, tower height, and group rotation produce the same
camera position, orientation, and look target, regardless of any prior
camera state or cached matrix. -/
theorem claim7_deterministic (g₁ g₂ : Globe) (d tilt : ℝ)
    (hlat : g₁.targetLat = g₂.targetLat) (hlon : g₁.targetLon = g₂.targetLon)
    (hh : g₁.towerHeight = g₂.towerHeight) (hrot : g₁.groupRotX = g₂.groupRotX) :
    (positionCameraAtTarget g₁ d tilt).cameraPos =
      (positionCameraAtTarget g₂ d tilt).cameraPos ∧
    (positionCameraAtTarget g₁ d tilt).cameraForward =
      (positionCameraAtTarget g₂ d tilt).cameraForward ∧
    (positionCameraAtTarget g₁ d tilt).cameraLookTarget =
      (positionCameraAtTarget g₂ d tilt).cameraLookTarget := by
  rw [cameraPos_eq, cameraPos_eq, cameraLookTarget_eq, cameraLookTarget_eq,
    cameraForward_eq, cameraForward_eq, hlat, hlon, hh, hrot]
  exact ⟨rfl, rfl, rfl⟩

/-- Witness for C7 at concrete distinct globe states sharing the target
coordinates and group rotation. -/
noncomputable def altGlobe : Globe :=
  { initialGlobe with
      cameraPos := ⟨1, 2, 3⟩
      cameraForward := ⟨0, 1, 0⟩
      cameraLookTarget := ⟨4, 5, 6⟩
      groupMatrixWorld := rotX 1 }

theorem claim7_deterministic_witness :
    (positionCameraAtTarget initialGlobe 800 70).cameraPos =
      (positionCameraAtTarget altGlobe 800 70).cameraPos ∧
    (positionCameraAtTarget initialGlobe 800 70).cameraForward =
      (positionCameraAtTarget altGlobe 800 70).cameraForward ∧
    (positionCameraAtTarget initialGlobe 800 70).cameraLookTarget =
      (positionCameraAtTarget altGlobe 800 70).cameraLookTarget :=
  claim7_deterministic initialGlobe altGlobe 800 70 rfl rfl rfl rfl

/-- Claim C9: for nonnegative distance and tilt in [0, 90], the camera's
geodetic latitude never exceeds the target's and its geodetic height is at
least half the target height. -/
theorem claim9_never_north_never_below (g : Globe) (d tilt : ℝ)
    (hd : 0 ≤ d) (h0 : 0 ≤ tilt) (h90 : tilt ≤ 90) :
    cameraLat g.targetLat d tilt ≤ g.targetLat ∧
    g.towerHeight / 2 ≤ cameraHeight g.towerHeight d tilt := by
  have hpi := Real.pi_pos
  have hrad0 : 0 ≤ elevationRad tilt := by
    unfold elevationRad elevationFromHorizontal DEG2RAD
    have : (0 : ℝ) ≤ 90 - tilt := by linarith
    positivity
  have hradtop : elevationRad tilt ≤ Real.pi / 2 := by
    unfold elevationRad elevationFromHorizontal DEG2RAD
    nlinarith
  have hcos : 0 ≤ Real.cos (elevationRad tilt) :=
    Real.cos_nonneg_of_mem_Icc ⟨by linarith, hradtop⟩
  have hsin : 0 ≤ Real.sin (elevationRad tilt) :=
    Real.sin_nonneg_of_nonneg_of_le_pi hrad0 (by linarith)
  constructor
  · unfold cameraLat cameraDistance
    have : 0 ≤ d * Real.cos (elevationRad tilt) / 111000 := by positivity
    linarith
  · unfold cameraHeight verticalDistance
    have : 0 ≤ d * Real.sin (elevationRad tilt) := mul_nonneg hd hsin
    linarith

/-- Witness for C9 at the application's default parameters. -/
theorem claim9_never_north_never_below_witness :
    cameraLat initialGlobe.targetLat 800 70 ≤ initialGlobe.targetLat ∧
    initialGlobe.towerHeight / 2 ≤ cameraHeight initialGlobe.towerHeight 800 70 :=
  claim9_never_north_never_below initialGlobe 800 70 (by norm_num) (by norm_num) (by norm_num)

/-- Claim C3 counterexample: at distance 0 (malformed input, distance not
greater than zero) the operation does not reject; it runs the
trigonometric computation and produces a degenerate pose whose camera
position coincides with its look target (a zero-length look-at vector).
No InvalidParameter condition exists anywhere in the code. -/
theorem claim3_counterexample :
    (0 : ℝ) ≤ 0 ∧
    (positionCameraAtTarget initialGlobe 0 0).cameraPos =
      (positionCameraAtTarget initialGlobe 0 0).cameraLookTarget := by
  refine ⟨le_refl 0, ?_⟩
  rw [cameraPos_eq, cameraLookTarget_eq]
  have h1 : cameraLat initialGlobe.targetLat 0 0 = initialGlobe.targetLat := by
    simp [cameraLat, cameraDistance]
  have h2 : cameraHeight initialGlobe.towerHeight 0 0 = initialGlobe.towerHeight / 2 := by
    simp [cameraHeight, verticalDistance]
  rw [h1, h2]

/-- Claim C3 amended: the operation performs no input validation; for
distance 0 (and any tilt) it still runs and yields a degenerate pose in
which the camera position equals the look target. -/
theorem claim3_amended_no_rejection (g : Globe) (tilt : ℝ) :
    (positionCameraAtTarget g 0 tilt).cameraPos =
      (positionCameraAtTarget g 0 tilt).cameraLookTarget := by
  rw [cameraPos_eq, cameraLookTarget_eq]
  have h1 : cameraLat g.targetLat 0 tilt = g.targetLat := by
    simp [cameraLat, cameraDistance]
  have h2 : cameraHeight g.towerHeight 0 tilt = g.towerHeight / 2 := by
    simp [cameraHeight, verticalDistance]
  rw [h1, h2]

/-- Claim C8: when the distance slider fires with a value above 200000 the
handler zeroes the tilt parameter before invoking the placement, so the
placement call carries tiltAngle 0; at 200000 or below the tilt parameter
is left unchanged. -/
theorem claim8_distance_slider_tilt_reset (p : Params) :
    (p.distanceFromCenter > 200000 →
      (distanceSliderOnChange p).1.tiltAngle = 0 ∧
      (distanceSliderOnChange p).2 = ⟨p.distanceFromCenter, 0⟩) ∧
    (p.distanceFromCenter ≤ 200000 →
      (distanceSliderOnChange p).1.tiltAngle = p.tiltAngle ∧
      (distanceSliderOnChange p).2 = ⟨p.distanceFromCenter, p.tiltAngle⟩) := by
  constructor
  · intro h
    simp [distanceSliderOnChange, h]
  · intro h
    simp [distanceSliderOnChange, not_lt.mpr h]

/-- Witness for C8 at a far distance (300000) and a near distance (800). -/
theorem claim8_distance_slider_tilt_reset_witness :
    (distanceSliderOnChange ⟨70, 300000⟩).1.tiltAngle = 0 ∧
    (distanceSliderOnChange ⟨70, 300000⟩).2 = ⟨300000, 0⟩ ∧
    (distanceSliderOnChange ⟨70, 800⟩).1.tiltAngle = 70 ∧
    (distanceSliderOnChange ⟨70, 800⟩).2 = ⟨800, 70⟩ :=
  ⟨((claim8_distance_slider_tilt_reset ⟨70, 300000⟩).1 (by norm_num)).1,
   ((claim8_distance_slider_tilt_reset ⟨70, 300000⟩).1 (by norm_num)).2,
   ((claim8_distance_slider_tilt_reset ⟨70, 800⟩).2 (by norm_num)).1,
   ((claim8_distance_slider_tilt_reset ⟨70, 800⟩).2 (by norm_num)).2⟩

/-- Invariant of the deferred-activation machinery: the number of
re-dispatched events is 1 exactly when the flag is set, and the controls
are enabled exactly when the flag is set. -/
def controlsInv (s : ControlsState) : Prop :=
  s.redispatchCount = (if s.initialInteractionPerformed then 1 else 0) ∧
  s.controlsEnabled = s.initialInteractionPerformed

lemma controlsStep_inv (s : ControlsState) (e : UiEvent) (h : controlsInv s) :
    controlsInv (controlsStep s e) := by
  obtain ⟨h1, h2⟩ := h
  cases e <;>
    by_cases hf : s.initialInteractionPerformed <;>
      simp_all [controlsInv, controlsStep, activate] <;>
        split <;> simp_all

lemma controlsRun_inv (evs : List UiEvent) (s : ControlsState) (h : controlsInv s) :
    controlsInv (controlsRun s evs) := by
  induction evs generalizing s with
  | nil => exact h
  | cons e evs ih => exact ih (controlsStep s e) (controlsStep_inv s e h)

lemma controlsStep_after_flag (s : ControlsState) (e : UiEvent)
    (hf : s.initialInteractionPerformed = true) :
    (controlsStep s e).redispatchCount = s.redispatchCount ∧
    (controlsStep s e).initialInteractionPerformed = true ∧
    (controlsStep s e).controlsEnabled = s.controlsEnabled := by
  cases e <;> simp [controlsStep, activate, hf] <;> split <;> simp [hf]

lemma controlsRun_after_flag (evs : List UiEvent) (s : ControlsState)
    (hf : s.initialInteractionPerformed = true) :
    (controlsRun s evs).redispatchCount = s.redispatchCount ∧
    (controlsRun s evs).initialInteractionPerformed = true ∧
    (controlsRun s evs).controlsEnabled = s.controlsEnabled := by
  induction evs generalizing s with
  | nil => exact ⟨rfl, hf, rfl⟩
  | cons e evs ih =>
      obtain ⟨hc, hflag, hen⟩ := controlsStep_after_flag s e hf
      obtain ⟨ihc, ihf, ihe⟩ := ih (controlsStep s e) hflag
      exact ⟨by rw [controlsRun] at ihc ⊢; simpa [hc] using ihc,
        by rw [controlsRun] at ihf ⊢; simpa using ihf,
        by rw [controlsRun] at ihe ⊢; simp only [List.foldl] ; rw [ihe, hen]⟩

/-- Claim C10: starting from a Globe constructed with controls disabled,
any event sequence re-dispatches at most one event; and once the first
activation happened, delivering further pointerdown or wheel events never
re-dispatches again and leaves the controls enabled. -/
theorem claim10_activation_at_most_once (evs pre post : List UiEvent) :
    (controlsRun initialControlsState evs).redispatchCount ≤ 1 ∧
    ((controlsRun initialControlsState pre).initialInteractionPerformed = true →
      (controlsRun initialControlsState (pre ++ post)).redispatchCount =
        (controlsRun initialControlsState pre).redispatchCount ∧
      (controlsRun initialControlsState (pre ++ post)).controlsEnabled = true) := by
  have hinit : controlsInv initialControlsState := ⟨rfl, rfl⟩
  constructor
  · obtain ⟨h1, _⟩ := controlsRun_inv evs initialControlsState hinit
    rw [h1]
    split <;> norm_num
  · intro hf
    have happ : controlsRun initialControlsState (pre ++ post) =
        controlsRun (controlsRun initialControlsState pre) post := by
      simp [controlsRun, List.foldl_append]
    obtain ⟨hc, _, he⟩ :=
      controlsRun_after_flag post (controlsRun initialControlsState pre) hf
    obtain ⟨_, hinv2⟩ := controlsRun_inv pre initialControlsState hinit
    rw [happ, hc, he, hinv2, hf]
    exact ⟨rfl, rfl⟩

/-- Witness for C10: a wheel-then-pointerdown sequence re-dispatches once;
after a pointerdown activated the controls, further wheel and pointerdown
events change nothing. -/
theorem claim10_activation_at_most_once_witness :
    (controlsRun initialControlsState [UiEvent.wheel, UiEvent.pointerdown]).redispatchCount ≤ 1 ∧
    ((controlsRun initialControlsState
        ([UiEvent.pointerdown] ++ [UiEvent.wheel, UiEvent.pointerdown])).redispatchCount =
      (controlsRun initialControlsState [UiEvent.pointerdown]).redispatchCount ∧
     (controlsRun initialControlsState
        ([UiEvent.pointerdown] ++ [UiEvent.wheel, UiEvent.pointerdown])).controlsEnabled = true) :=
  ⟨(claim10_activation_at_most_once [UiEvent.wheel, UiEvent.pointerdown]
      [UiEvent.pointerdown] [UiEvent.wheel, UiEvent.pointerdown]).1,
   (claim10_activation_at_most_once [UiEvent.wheel, UiEvent.pointerdown]
      [UiEvent.pointerdown] [UiEvent.wheel, UiEvent.pointerdown]).2 (by decide)⟩

/-! Lemmas for claim C5. -/

lemma ellipsoid_sub_two_pi (φ l h : ℝ) :
    ellipsoidToWorld (φ - 2 * Real.pi) l h = ellipsoidToWorld φ l h := by
  simp [ellipsoidToWorld, Real.cos_sub_two_pi, Real.sin_sub_two_pi]

lemma ellipsoid_sub_pi (φ l h : ℝ) :
    ellipsoidToWorld (φ - Real.pi) l h = neg3 (ellipsoidToWorld φ l h) := by
  simp only [ellipsoidToWorld, neg3, Real.cos_sub_pi, Real.sin_sub_pi, neg_sq,
    Vec3.mk.injEq]
  refine ⟨by ring, by ring, by ring⟩

lemma gamma_pos (φ : ℝ) :
    0 < Real.sqrt (wgs84a ^ 2 * Real.cos φ ^ 2 + wgs84b ^ 2 * Real.sin φ ^ 2) := by
  apply Real.sqrt_pos.mpr
  have h1 : (0 : ℝ) < wgs84b ^ 2 := by norm_num [wgs84b]
  have h2 : wgs84b ^ 2 ≤ wgs84a ^ 2 := by norm_num [wgs84a, wgs84b]
  nlinarith [Real.sin_sq_add_cos_sq φ, sq_nonneg (Real.cos φ), sq_nonneg (Real.sin φ)]

lemma ellipsoid_z (φ l h : ℝ) :
    (ellipsoidToWorld φ l h).z =
      (wgs84b ^ 2 /
          Real.sqrt (wgs84a ^ 2 * Real.cos φ ^ 2 + wgs84b ^ 2 * Real.sin φ ^ 2) + h) *
        Real.sin φ := rfl

lemma dist2_self (v : Vec3) : dist2 v v = 0 := by
  simp [dist2]

lemma dist2_neg3 (v : Vec3) :
    dist2 (neg3 v) v = 4 * (v.x ^ 2 + v.y ^ 2 + v.z ^ 2) := by
  simp only [dist2, neg3]
  ring

/-- The target's pre-transform world position for the application's globe. -/
noncomputable def tokyoTarget : Vec3 :=
  ellipsoidToWorld (initialGlobe.targetLat * DEG2RAD) (initialGlobe.targetLon * DEG2RAD)
    (initialGlobe.towerHeight / 2)

lemma tokyoTarget_z_pos : 0 < tokyoTarget.z := by
  have hpi := Real.pi_pos
  rw [tokyoTarget, ellipsoid_z]
  have hlat : initialGlobe.targetLat * DEG2RAD = 35.6586 * (Real.pi / 180) := rfl
  have hsin : 0 < Real.sin (initialGlobe.targetLat * DEG2RAD) := by
    rw [hlat]
    apply Real.sin_pos_of_pos_of_lt_pi
    · positivity
    · nlinarith
  have hγ := gamma_pos (initialGlobe.targetLat * DEG2RAD)
  have hb : (0 : ℝ) < wgs84b ^ 2 := by norm_num [wgs84b]
  have hdiv : 0 < wgs84b ^ 2 /
      Real.sqrt (wgs84a ^ 2 * Real.cos (initialGlobe.targetLat * DEG2RAD) ^ 2 +
        wgs84b ^ 2 * Real.sin (initialGlobe.targetLat * DEG2RAD) ^ 2) :=
    div_pos hb hγ
  have hh : (0 : ℝ) < initialGlobe.towerHeight / 2 := by
    have : initialGlobe.towerHeight = 333 := rfl
    rw [this]; norm_num
  exact mul_pos (by linarith) hsin

lemma camPos_at_half_turn :
    (positionCameraAtTarget initialGlobe 19980000 90).cameraPos =
      (rotX initialGlobe.groupRotX).apply (neg3 tokyoTarget) := by
  rw [camPos_tilt_ninety]
  have hlat : (initialGlobe.targetLat - 19980000 / 111000) * DEG2RAD =
      initialGlobe.targetLat * DEG2RAD - Real.pi := by
    have h180 : (19980000 : ℝ) / 111000 = 180 := by norm_num
    show (35.6586 - 19980000 / 111000 : ℝ) * (Real.pi / 180) =
      (35.6586 : ℝ) * (Real.pi / 180) - Real.pi
    rw [h180]; ring
  rw [hlat, ellipsoid_sub_pi]
  rfl

lemma camPos_at_full_turn :
    (positionCameraAtTarget initialGlobe 39960000 90).cameraPos =
      (rotX initialGlobe.groupRotX).apply tokyoTarget := by
  rw [camPos_tilt_ninety]
  have hlat : (initialGlobe.targetLat - 39960000 / 111000) * DEG2RAD =
      initialGlobe.targetLat * DEG2RAD - 2 * Real.pi := by
    have h360 : (39960000 : ℝ) / 111000 = 360 := by norm_num
    show (35.6586 - 39960000 / 111000 : ℝ) * (Real.pi / 180) =
      (35.6586 : ℝ) * (Real.pi / 180) - 2 * Real.pi
    rw [h360]; ring
  rw [hlat, ellipsoid_sub_two_pi]
  rfl

/-- Claim C5 counterexample: with tiltAngle 90 (a valid tilt) and the
positive distances 19980000 < 39960000, the camera-to-target Euclidean
distance does not increase: the flat 111000 m/degree latitude offset wraps
the globe, so at 39960000 m (360 degrees south) the camera returns exactly
to the target (distance 0), while at 19980000 m (180 degrees south) it sits
diametrically opposite the target (distance > 0). -/
theorem claim5_counterexample :
    (0 : ℝ) < 19980000 ∧ (19980000 : ℝ) < 39960000 ∧
    (0 : ℝ) ≤ 90 ∧ (90 : ℝ) ≤ 90 ∧
    ¬ (edist3 (positionCameraAtTarget initialGlobe 19980000 90).cameraPos
          (positionCameraAtTarget initialGlobe 19980000 90).cameraLookTarget <
       edist3 (positionCameraAtTarget initialGlobe 39960000 90).cameraPos
          (positionCameraAtTarget initialGlobe 39960000 90).cameraLookTarget) := by
  refine ⟨by norm_num, by norm_num, by norm_num, by norm_num, ?_⟩
  have htgt1 : (positionCameraAtTarget initialGlobe 19980000 90).cameraLookTarget =
      (rotX initialGlobe.groupRotX).apply tokyoTarget := rfl
  have htgt2 : (positionCameraAtTarget initialGlobe 39960000 90).cameraLookTarget =
      (rotX initialGlobe.groupRotX).apply tokyoTarget := rfl
  have hfar : edist3 (positionCameraAtTarget initialGlobe 19980000 90).cameraPos
      (positionCameraAtTarget initialGlobe 19980000 90).cameraLookTarget =
      Real.sqrt (4 * (tokyoTarget.x ^ 2 + tokyoTarget.y ^ 2 + tokyoTarget.z ^ 2)) := by
    rw [edist3, htgt1, camPos_at_half_turn, rotX_dist2, dist2_neg3]
  have hzero : edist3 (positionCameraAtTarget initialGlobe 39960000 90).cameraPos
      (positionCameraAtTarget initialGlobe 39960000 90).cameraLookTarget = 0 := by
    rw [edist3, htgt2, camPos_at_full_turn, rotX_dist2, dist2_self, Real.sqrt_zero]
  rw [hfar, hzero]
  have hz := tokyoTarget_z_pos
  have hpos : 0 < Real.sqrt (4 * (tokyoTarget.x ^ 2 + tokyoTarget.y ^ 2 + tokyoTarget.z ^ 2)) := by
    apply Real.sqrt_pos.mpr
    nlinarith [sq_nonneg tokyoTarget.x, sq_nonneg tokyoTarget.y, mul_pos hz hz]
  exact not_lt.mpr hpos.le

lemma edist_tilt_zero (g : Globe) (d : ℝ) (hd : 0 ≤ d) :
    edist3 (positionCameraAtTarget g d 0).cameraPos
      (positionCameraAtTarget g d 0).cameraLookTarget = d := by
  rw [edist3, camPos_tilt_zero, cameraLookTarget_eq, rotX_dist2, dist2_same_latlon]
  have h : (g.towerHeight / 2 + d - g.towerHeight / 2) ^ 2 = d ^ 2 := by ring
  rw [h, Real.sqrt_sq hd]

/-- Claim C5 amended: with tiltAngle 0 the Euclidean camera-to-target
distance equals the distance parameter, so it strictly increases with the
distance parameter.  For positive tilt angles the original universally
quantified statement fails at large distances (see the counterexample):
the flat latitude offset wraps around the globe. -/
theorem claim5_amended_monotone_tilt_zero (g : Globe) (d₁ d₂ : ℝ)
    (h1 : 0 < d₁) (h12 : d₁ < d₂) :
    edist3 (positionCameraAtTarget g d₁ 0).cameraPos
      (positionCameraAtTarget g d₁ 0).cameraLookTarget <
    edist3 (positionCameraAtTarget g d₂ 0).cameraPos
      (positionCameraAtTarget g d₂ 0).cameraLookTarget := by
  rw [edist_tilt_zero g d₁ h1.le, edist_tilt_zero g d₂ (by linarith)]
  exact h12

/-- Witness for the amended C5 at distances 1 and 2. -/
theorem claim5_amended_monotone_tilt_zero_witness :
    edist3 (positionCameraAtTarget initialGlobe 1 0).cameraPos
      (positionCameraAtTarget initialGlobe 1 0).cameraLookTarget <
    edist3 (positionCameraAtTarget initialGlobe 2 0).cameraPos
      (positionCameraAtTarget initialGlobe 2 0).cameraLookTarget :=
  claim5_amended_monotone_tilt_zero initialGlobe 1 2 (by norm_num) (by norm_num)

end EarthRenderer
